import Mathlib

/-!
Shallow embedding of the contact-management service in `src/main.py`
(with its table model in `src/db.py`), and proofs about its handlers:
the Pydantic phone validator, the PATCH merge-update handler, the
DELETE handler, the search handler, the birthday-window query and the
boundary exception handlers.
-/

set_option autoImplicit false

namespace Fastapi1

/-! ## Dates

Python `datetime.date` values, modelled as Gregorian year/month/day.
`datetime(year, month, day)` validates its arguments and raises
`ValueError` on an impossible day, which `mkDate` models by `Option`.
Comparison of `date` objects is lexicographic on (year, month, day),
and `timedelta` addition steps through the calendar.
-/

structure PyDate where
  year : Nat
  month : Nat
  day : Nat
  deriving DecidableEq, Repr

def isLeap (y : Nat) : Bool :=
  (y % 4 == 0 && y % 100 != 0) || (y % 400 == 0)

def daysInMonth (y m : Nat) : Nat :=
  if m == 2 then (if isLeap y then 29 else 28)
  else if m == 4 || m == 6 || m == 9 || m == 11 then 30
  else 31

/-- `datetime(y, m, d)`: `some` on a valid calendar date, `none` where
Python raises `ValueError`. -/
def mkDate (y m d : Nat) : Option PyDate :=
  if 1 ≤ m && m ≤ 12 && 1 ≤ d && d ≤ daysInMonth y m then some ⟨y, m, d⟩ else none

/-- `a <= b` on Python `date` objects (lexicographic on year, month, day). -/
def dateLe (a b : PyDate) : Bool :=
  a.year < b.year ||
    (a.year == b.year && (a.month < b.month ||
      (a.month == b.month && a.day ≤ b.day)))

def nextDay (d : PyDate) : PyDate :=
  if d.day < daysInMonth d.year d.month then ⟨d.year, d.month, d.day + 1⟩
  else if d.month < 12 then ⟨d.year, d.month + 1, 1⟩
  else ⟨d.year + 1, 1, 1⟩

/-- `d + timedelta(days = n)` for a valid date `d`. -/
def addDays (d : PyDate) : Nat → PyDate
  | 0 => d
  | n + 1 => addDays (nextDay d) n

/-! ## The contact record

`src/main.py` does `from db import get_db, Contact`; `src/db.py` itself
declares the analogous `users` table (class `User`) with exactly these
columns but no `Contact` class.  The record is therefore modelled from
the spec and from every use in `main.py`.

The `born_date` column nominally holds a date, but the PATCH handler
assigns the raw query-string value to it without parsing, so the slot
can also hold an arbitrary string; `BornVal` keeps both possibilities
apart. -/

inductive BornVal where
  | date (d : PyDate)
  | raw (s : String)
  deriving DecidableEq, Repr

/-- Modelled from the spec: the stored contact record
(`contacts/users(id, name, lastname, email, phone, born_date,
description)`); `src/db.py` has only the analogous `User` class, while
`main.py` imports and uses `Contact` with exactly these fields. -/
structure Contact where
  id : Int
  name : String
  lastname : String
  email : String
  phone : String
  born_date : BornVal
  description : Option String
  deriving DecidableEq, Repr

/-- `db.query(Contact).filter(Contact.id == contact_id).first()`. -/
def firstById (db : List Contact) (contact_id : Int) : Option Contact :=
  db.find? (fun c => c.id == contact_id)

/-! ## Phone validation (`ContactModel`)

`ContactModel.phone` is declared `Field(min_length=12, max_length=20)`
and additionally checked by the validator
`phone_number_must_have_12_digits`, which runs
`re.match(r"^\+?\d\x7b2,3\x7d\(?\d\x7b2,3\x7d\)?\s?(\d\x7b2,3\x7d\-?)\x7b2\x7d\d\x7b2,3\x7d", phone)`
and raises `ValueError` when there is no match.  `re.match` anchors at
the start of the string only, so the pattern has to match a leading
segment of the input; trailing characters are allowed.

The matcher below enumerates, piece by piece of the pattern, every way
the piece can consume input, and accepts iff some combination matches:
this decides exactly whether `re.match` returns a match object. -/

/-- Consume exactly `n` characters matched by `\d`. -/
def dropDigits : Nat → List Char → Option (List Char)
  | 0, s => some s
  | _ + 1, [] => none
  | n + 1, c :: s => if c.isDigit then dropDigits n s else none

/-- All remainders after the piece `\d\x7b2,3\x7d`. -/
def d23 (s : List Char) : List (List Char) :=
  (dropDigits 2 s).toList ++ (dropDigits 3 s).toList

/-- All remainders after an optional single character (`\+?`, `\(?`,
`\)?`, `\s?`, `\-?`). -/
def optTok (p : Char → Bool) : List Char → List (List Char)
  | [] => [[]]
  | c :: s => if p c then [s, c :: s] else [c :: s]

/-- Python `\s` (ASCII range, which covers all inputs considered). -/
def isPySpace (c : Char) : Bool :=
  c == ' ' || c == '\t' || c == '\n' || c == '\r' || c == '\x0b' || c == '\x0c'

/-- Whether the phone regex matches at the start of `s`:
`\+?  \d\x7b2,3\x7d  \(?  \d\x7b2,3\x7d  \)?  \s?  (\d\x7b2,3\x7d\-?)\x7b2\x7d  \d\x7b2,3\x7d`. -/
def phoneMatch (s : List Char) : Bool :=
  (optTok (fun c => c == '+') s).any fun s1 =>
  (d23 s1).any fun s2 =>
  (optTok (fun c => c == '(') s2).any fun s3 =>
  (d23 s3).any fun s4 =>
  (optTok (fun c => c == ')') s4).any fun s5 =>
  (optTok isPySpace s5).any fun s6 =>
  (d23 s6).any fun s7 =>
  (optTok (fun c => c == '-') s7).any fun s8 =>
  (d23 s8).any fun s9 =>
  (optTok (fun c => c == '-') s9).any fun s10 =>
  !(d23 s10).isEmpty

/-- The `@validator("phone")` body: `ValueError` when the regex finds
no match, otherwise the value itself. -/
def phone_number_must_have_12_digits (phone : String) : Except String String :=
  if phoneMatch phone.data then Except.ok phone
  else Except.error "Phone number must have more than 12 digits"

/-- Pydantic validation of `ContactModel.phone`: the `Field` length
bounds, then the custom validator; an error is reported against the
`phone` field. -/
def validate_phone_field (phone : String) : Except (String × String) String :=
  if phone.length < 12 then
    Except.error ("phone", "ensure this value has at least 12 characters")
  else if phone.length > 20 then
    Except.error ("phone", "ensure this value has at most 20 characters")
  else
    match phone_number_must_have_12_digits phone with
    | Except.error e => Except.error ("phone", e)
    | Except.ok p => Except.ok p

/-! ## PATCH /contacts/(contact_id) — `update_contact`

The handler takes each field as an optional raw query-string parameter
(`name: str = None`, ..., `born_date: str = None`) and mutates the
stored row with `if field: contact.field = field`, so a field
overwrites the stored value exactly when it is supplied and non-empty
(Python truthiness on `Optional[str]`).  `born_date` is assigned as
the raw string: the handler never parses it as a date.  The
`new_contact = Contact(...)` object built afterwards is never added to
the session, so only the mutation of the fetched row is persisted. -/

structure UpdateParams where
  name : Option String
  lastname : Option String
  email : Option String
  phone : Option String
  born_date : Option String
  description : Option String
  deriving DecidableEq, Repr

/-- Python truthiness of an `Optional[str]` parameter: `None` and the
empty string are falsy. -/
def truthy : Option String → Bool
  | none => false
  | some s => s != ""

/-- `if v: cur = v` for a `str` column. -/
def setStr (cur : String) : Option String → String
  | none => cur
  | some s => if s != "" then s else cur

/-- `if v: cur = v` for the nullable `description` column. -/
def setOptStr (cur : Option String) : Option String → Option String
  | none => cur
  | some s => if s != "" then some s else cur

/-- `if born_date: contact.born_date = born_date` — the raw string is
stored. -/
def setBorn (cur : BornVal) : Option String → BornVal
  | none => cur
  | some s => if s != "" then BornVal.raw s else cur

/-- The six `if field:` mutations applied to the fetched row. -/
def applyUpdate (c : Contact) (p : UpdateParams) : Contact :=
  { c with
    name := setStr c.name p.name
    lastname := setStr c.lastname p.lastname
    email := setStr c.email p.email
    phone := setStr c.phone p.phone
    born_date := setBorn c.born_date p.born_date
    description := setOptStr c.description p.description }

/-- Commit of the in-place mutation: the first row with this id (the
one `first()` returned) is replaced, every other row is untouched. -/
def replaceFirstById (db : List Contact) (contact_id : Int) (c : Contact) :
    List Contact :=
  match db with
  | [] => []
  | x :: rest =>
    if x.id == contact_id then c :: rest
    else x :: replaceFirstById rest contact_id c

/-- The `update_contact` handler body.  When no row has the id,
`contact` is `None` and the first attribute access raises
`AttributeError` (an uncaught Python exception). -/
def update_contact (db : List Contact) (contact_id : Int) (p : UpdateParams) :
    Except String (List Contact × String) :=
  match firstById db contact_id with
  | none => Except.error "AttributeError: NoneType has no attribute name"
  | some c =>
    Except.ok (replaceFirstById db contact_id (applyUpdate c p),
      "record was succefully updated")

/-! ## DELETE /contacts/(contact_id) — `delete_contact` -/

/-- The `delete_contact` handler body: it fetches the first row with
the id and passes the result straight to `db.delete` without a `None`
check; `db.delete(None)` raises `UnmappedInstanceError` (an uncaught
Python exception). -/
def delete_contact (db : List Contact) (contact_id : Int) :
    Except String (List Contact × String) :=
  match firstById db contact_id with
  | none => Except.error "UnmappedInstanceError: NoneType is not mapped"
  | some _ =>
    Except.ok (db.eraseP (fun c => c.id == contact_id), "Item Deleted Succesfully")

/-! ## GET /contacts/(contact_id) — `read_contact` -/

/-- The `read_contact` handler body: 404 `HTTPException` when no row
has the id. -/
def read_contact (db : List Contact) (contact_id : Int) :
    Except (Nat × String) Contact :=
  match firstById db contact_id with
  | none => Except.error (404, "Not found")
  | some c => Except.ok c

/-! ## Route-level path validation

Each of the three id routes declares
`contact_id: int = Path(..., gt=0)`; FastAPI rejects a request whose
id fails the bound with a parameter-validation error before the
handler body (and hence any store operation) runs.  The wrappers below
model a route as: validate the path parameter, then run the handler. -/

def pathViolation : String := "Input should be greater than 0"

def route_read_contact (db : List Contact) (contact_id : Int) :
    Except String (Except (Nat × String) Contact) :=
  if contact_id > 0 then Except.ok (read_contact db contact_id)
  else Except.error pathViolation

def route_update_contact (db : List Contact) (contact_id : Int)
    (p : UpdateParams) : Except String (Except String (List Contact × String)) :=
  if contact_id > 0 then Except.ok (update_contact db contact_id p)
  else Except.error pathViolation

def route_delete_contact (db : List Contact) (contact_id : Int) :
    Except String (Except String (List Contact × String)) :=
  if contact_id > 0 then Except.ok (delete_contact db contact_id)
  else Except.error pathViolation

/-! ## GET /search — `search_contact` -/

/-- What the search route returns: either the result of one store
query (`first()` may be `None`, serialised as JSON `null`), or the
literal fallback body — both with the default 200 status. -/
inductive SearchResult where
  | row (c : Option Contact)
  | message (s : String)
  deriving DecidableEq, Repr

/-- The `search_contact` handler body: the three parameters are tested
for truthiness in order name, lastname, email; the first truthy one
picks the store query, and when all are falsy the handler returns the
fallback dict without querying the store. -/
def search_contact (db : List Contact) (name lastname email : Option String) :
    SearchResult :=
  if truthy name then
    SearchResult.row (db.find? (fun c => c.name == name.getD ""))
  else if truthy lastname then
    SearchResult.row (db.find? (fun c => c.lastname == lastname.getD ""))
  else if truthy email then
    SearchResult.row (db.find? (fun c => c.email == email.getD ""))
  else SearchResult.message "Not Found"

/-- The route's HTTP response: a handler that returns normally gets
FastAPI's default success status 200. -/
def search_route_response (db : List Contact)
    (name lastname email : Option String) : Nat × SearchResult :=
  (200, search_contact db name lastname email)

/-! ## GET /birthday — `get_birthday_week` -/

/-- `user.born_date.month` / `.day`: defined on a date value; on a raw
string the attribute access would raise (`none`). -/
def bornMonthDay : BornVal → Option (Nat × Nat)
  | BornVal.date d => some (d.month, d.day)
  | BornVal.raw _ => none

/-- `datetime(date.today().year, user.born_date.month,
user.born_date.day).date()`: the year-normalised birthday, `none`
where Python raises. -/
def yearBday (today : PyDate) (u : Contact) : Option PyDate :=
  match bornMonthDay u.born_date with
  | some (m, d) => mkDate today.year m d
  | none => none

/-- `date.today() <= bday <= week` with `week = date.today() +
timedelta(days=6)`. -/
def inWindow (today b : PyDate) : Bool :=
  dateLe today b && dateLe b (addDays today 6)

/-- The `get_birthday_week` handler body: walk the rows in order,
build each year-normalised birthday (raising ends the request), and
collect the rows whose birthday lies in the 7-day window. -/
def get_birthday_week (today : PyDate) : List Contact → Except String (List Contact)
  | [] => Except.ok []
  | u :: rest =>
    match yearBday today u with
    | none => Except.error "ValueError: day is out of range for month"
    | some b =>
      match get_birthday_week today rest with
      | Except.error e => Except.error e
      | Except.ok l => Except.ok (if inWindow today b then u :: l else l)

/-! ## Boundary exception handlers -/

/-- A raised Python exception as the catch-all handler sees it: its
class, its constructor arguments, and its instance attribute
dictionary. -/
structure PyExc where
  typeName : String
  args : String
  attrs : List (String × String)
  deriving DecidableEq, Repr

/-- The JSON response body produced at the boundary. -/
structure Response where
  status : Nat
  message : String
  error : List (String × String)
  deriving DecidableEq, Repr

/-- The `@app.exception_handler(Exception)` catch-all: status 500 and
`content = (message: "An unexpected error occurred", error:
exc.__dict__)` — the instance attribute dictionary is put in the
body. -/
def unexpected_exception_handler (exc : PyExc) : Response :=
  { status := 500
    message := "An unexpected error occurred"
    error := exc.attrs }

/-- The DELETE route end to end: path validation, the handler, and
mapping of an uncaught exception through the catch-all handler
(`UnmappedInstanceError` carries no instance attributes). -/
def route_delete_response (db : List Contact) (contact_id : Int) : Response :=
  if contact_id > 0 then
    match delete_contact db contact_id with
    | Except.ok (_, msg) => { status := 200, message := msg, error := [] }
    | Except.error e =>
      unexpected_exception_handler { typeName := "UnmappedInstanceError", args := e, attrs := [] }
  else
    { status := 422, message := pathViolation, error := [("loc", "path contact_id")] }

/-! ## Concrete requests and records used as test inputs -/

def annJun5 : Contact :=
  { id := 1, name := "Ann", lastname := "Smith", email := "a@x.com",
    phone := "380(44)123-45-67", born_date := BornVal.date ⟨1990, 6, 5⟩,
    description := none }

def annJun10 : Contact := { annJun5 with id := 2, born_date := BornVal.date ⟨1990, 6, 10⟩ }

def annMay31 : Contact := { annJun5 with id := 3, born_date := BornVal.date ⟨1990, 5, 31⟩ }

def bdayDb : List Contact := [annJun5, annJun10, annMay31]

def todayJun1 : PyDate := ⟨2024, 6, 1⟩

def leapAnn : Contact := { annJun5 with born_date := BornVal.date ⟨2000, 2, 29⟩ }

def noParams : UpdateParams :=
  { name := none, lastname := none, email := none, phone := none,
    born_date := none, description := none }

def nameOnlyPatch : UpdateParams := { noParams with name := some "Bob" }

def badDatePatch : UpdateParams := { noParams with born_date := some "99-99-9999" }

def excLeaky : PyExc :=
  { typeName := "StatementError", args := "boom",
    attrs := [("statement", "SELECT id FROM users")] }

def excPlain : PyExc := { typeName := "ValueError", args := "other", attrs := [] }

/-! ## Helper lemmas -/

theorem setStr_eq (cur : String) (v : Option String) :
    setStr cur v = if truthy v then v.getD "" else cur := by
  cases v <;> simp [setStr, truthy]

theorem setOptStr_eq (cur : Option String) (v : Option String) :
    setOptStr cur v = if truthy v then some (v.getD "") else cur := by
  cases v <;> simp [setOptStr, truthy]

theorem setBorn_eq (cur : BornVal) (v : Option String) :
    setBorn cur v = if truthy v then BornVal.raw (v.getD "") else cur := by
  cases v <;> simp [setBorn, truthy]

theorem applyUpdate_id (c : Contact) (p : UpdateParams) :
    (applyUpdate c p).id = c.id := rfl

/-- Looking up the id after the in-place mutation was committed finds
the mutated row. -/
theorem firstById_replace (db : List Contact) (cid : Int) (c2 : Contact)
    (h : (firstById db cid).isSome) (hid : (c2.id == cid) = true) :
    firstById (replaceFirstById db cid c2) cid = some c2 := by
  induction db with
  | nil => simp [firstById] at h
  | cons x rest ih =>
    by_cases hx : (x.id == cid) = true
    · simp [replaceFirstById, hx, firstById, List.find?_cons_of_pos, hid]
    · have h2 : (firstById rest cid).isSome := by
        simpa [firstById, List.find?_cons_of_neg, hx] using h
      simpa [replaceFirstById, hx, firstById, List.find?_cons_of_neg] using ih h2

/-- Soundness of the birthday scan: a contact in a successful result
comes from the table and its year-normalised birthday was built and
lies in the window. -/
theorem gbw_sound (today : PyDate) (db l : List Contact)
    (h : get_birthday_week today db = Except.ok l) (u : Contact) (hu : u ∈ l) :
    u ∈ db ∧ ∃ b, yearBday today u = some b ∧ inWindow today b = true := by
  induction db generalizing l with
  | nil =>
    simp only [get_birthday_week, Except.ok.injEq] at h
    subst h
    cases hu
  | cons v rest ih =>
    simp only [get_birthday_week] at h
    cases hv : yearBday today v with
    | none => rw [hv] at h; cases h
    | some b =>
      rw [hv] at h
      cases hr : get_birthday_week today rest with
      | error e => rw [hr] at h; cases h
      | ok l2 =>
        rw [hr] at h
        simp only [Except.ok.injEq] at h
        subst h
        by_cases hw : inWindow today b = true
        · rw [if_pos hw] at hu
          rcases List.mem_cons.mp hu with rfl | hu2
          · exact ⟨List.mem_cons_self _ _, b, hv, hw⟩
          · rcases ih l2 hr hu2 with ⟨hm, hb⟩
            exact ⟨List.mem_cons_of_mem _ hm, hb⟩
        · rw [if_neg hw] at hu
          rcases ih l2 hr hu with ⟨hm, hb⟩
          exact ⟨List.mem_cons_of_mem _ hm, hb⟩

/-- Completeness of the birthday scan: when the request succeeds,
every contact whose year-normalised birthday lies in the window is in
the result. -/
theorem gbw_complete (today : PyDate) (db l : List Contact)
    (h : get_birthday_week today db = Except.ok l) (u : Contact) (hu : u ∈ db)
    (b : PyDate) (hb : yearBday today u = some b) (hw : inWindow today b = true) :
    u ∈ l := by
  induction db generalizing l with
  | nil => cases hu
  | cons v rest ih =>
    simp only [get_birthday_week] at h
    cases hv : yearBday today v with
    | none => rw [hv] at h; cases h
    | some b2 =>
      rw [hv] at h
      cases hr : get_birthday_week today rest with
      | error e => rw [hr] at h; cases h
      | ok l2 =>
        rw [hr] at h
        simp only [Except.ok.injEq] at h
        subst h
        rcases List.mem_cons.mp hu with rfl | hu2
        · have hbb : b2 = b := by
            rw [hv] at hb
            exact Option.some.inj hb
          subst hbb
          rw [if_pos hw]
          exact List.mem_cons_self _ _
        · have hm : u ∈ l2 := ih l2 hr hu2
          by_cases hw2 : inWindow today b2 = true
          · rw [if_pos hw2]; exact List.mem_cons_of_mem _ hm
          · rw [if_neg hw2]; exact hm

/-- A row whose year-normalised birthday cannot be constructed makes
the whole birthday request raise. -/
theorem gbw_error (today : PyDate) (db : List Contact) (u : Contact)
    (hu : u ∈ db) (hb : yearBday today u = none) :
    ∃ e, get_birthday_week today db = Except.error e := by
  induction db with
  | nil => cases hu
  | cons v rest ih =>
    cases hv : yearBday today v with
    | none =>
      exact ⟨"ValueError: day is out of range for month",
        by simp [get_birthday_week, hv]⟩
    | some b =>
      rcases List.mem_cons.mp hu with rfl | hu2
      · rw [hv] at hb; cases hb
      · rcases ih hu2 with ⟨e, he⟩
        exact ⟨e, by simp [get_birthday_week, hv, he]⟩

/-! ## The claims -/

/-- Claim C1: the spec requires DELETE on a nonexistent id to fail
with NotFound mapped to 404 and never a 500-class error.  The code
omits the `None` check: on an empty table, DELETE /contacts/1 passes
path validation, `first()` yields `None`, `db.delete(None)` raises,
and the catch-all handler turns that into a generic 500 — not 404. -/
theorem C1_delete_missing_yields_500 :
    route_delete_response [] 1 =
      { status := 500, message := "An unexpected error occurred", error := [] } ∧
    (route_delete_response [] 1).status ≠ 404 := by decide

/-- Claim C2: PATCH on an existing contact merges: each field of the
stored row is overwritten exactly when the request supplies it
non-empty, and keeps its stored value otherwise. -/
theorem C2_update_merge (db : List Contact) (cid : Int) (p : UpdateParams)
    (c : Contact) (h : firstById db cid = some c) :
    ∃ db2, update_contact db cid p =
        Except.ok (db2, "record was succefully updated") ∧
      ∃ c2, firstById db2 cid = some c2 ∧
        c2.name = (if truthy p.name then p.name.getD "" else c.name) ∧
        c2.lastname = (if truthy p.lastname then p.lastname.getD "" else c.lastname) ∧
        c2.email = (if truthy p.email then p.email.getD "" else c.email) ∧
        c2.phone = (if truthy p.phone then p.phone.getD "" else c.phone) ∧
        c2.born_date = (if truthy p.born_date then BornVal.raw (p.born_date.getD "")
          else c.born_date) ∧
        c2.description = (if truthy p.description then some (p.description.getD "")
          else c.description) := by
  have h2 : List.find? (fun x => x.id == cid) db = some c := h
  have hid3 := List.find?_some h2
  have hid : (c.id == cid) = true := by simpa using hid3
  refine ⟨replaceFirstById db cid (applyUpdate c p), ?_, applyUpdate c p, ?_,
    ?_, ?_, ?_, ?_, ?_, ?_⟩
  · simp [update_contact, h]
  · exact firstById_replace db cid _ (by simp [h]) (by rw [applyUpdate_id]; exact hid)
  · exact setStr_eq c.name p.name
  · exact setStr_eq c.lastname p.lastname
  · exact setStr_eq c.email p.email
  · exact setStr_eq c.phone p.phone
  · exact setBorn_eq c.born_date p.born_date
  · exact setOptStr_eq c.description p.description

/-- Witness for C2: PATCH of contact 1 supplying only `name` changes
`name` to the supplied value and leaves every other field of the
stored row unchanged. -/
theorem C2_update_merge_witness :
    ∃ db2, update_contact [annJun5] 1 nameOnlyPatch =
        Except.ok (db2, "record was succefully updated") ∧
      ∃ c2, firstById db2 1 = some c2 ∧
        c2.name = (if truthy nameOnlyPatch.name then nameOnlyPatch.name.getD ""
          else annJun5.name) ∧
        c2.lastname = (if truthy nameOnlyPatch.lastname then nameOnlyPatch.lastname.getD ""
          else annJun5.lastname) ∧
        c2.email = (if truthy nameOnlyPatch.email then nameOnlyPatch.email.getD ""
          else annJun5.email) ∧
        c2.phone = (if truthy nameOnlyPatch.phone then nameOnlyPatch.phone.getD ""
          else annJun5.phone) ∧
        c2.born_date = (if truthy nameOnlyPatch.born_date
          then BornVal.raw (nameOnlyPatch.born_date.getD "") else annJun5.born_date) ∧
        c2.description = (if truthy nameOnlyPatch.description
          then some (nameOnlyPatch.description.getD "") else annJun5.description) :=
  C2_update_merge [annJun5] 1 nameOnlyPatch annJun5 rfl

/-- Claim C3: when GET /birthday completes normally, a stored contact
is in the result iff the date built from the current year and the
contact's stored birth month and day lies in the inclusive window
from today to today plus six days. -/
theorem C3_birthday_window (today : PyDate) (db l : List Contact)
    (h : get_birthday_week today db = Except.ok l) (u : Contact) (hu : u ∈ db) :
    u ∈ l ↔ ∃ b, yearBday today u = some b ∧ inWindow today b = true := by
  constructor
  · intro hl
    exact (gbw_sound today db l h u hl).2
  · rintro ⟨b, hb, hw⟩
    exact gbw_complete today db l h u hu b hb hw

/-- Witness for C3, the spec's example: with today 2024-06-01 and
contacts born 1990-06-05, 1990-06-10 and 1990-05-31, the query
returns exactly the 06-05 contact, and the theorem applied to it
yields the window characterisation. -/
theorem C3_birthday_window_witness :
    annJun5 ∈ ([annJun5] : List Contact) ↔
      ∃ b, yearBday todayJun1 annJun5 = some b ∧ inWindow todayJun1 b = true :=
  C3_birthday_window todayJun1 bdayDb [annJun5] (by rfl) annJun5 (by decide)

/-- Counterexample to claim C4: phone validation does not accept
`+1(234)567-8901` — the regex's leading digit group needs two or
three digits, but only the single digit 1 stands before the opening
parenthesis, so the validator raises and the value is rejected. -/
theorem C4_counterexample :
    validate_phone_field "+1(234)567-8901" ≠ Except.ok "+1(234)567-8901" := by
  intro h
  cases h

/-- Claim C4 (amended): phone validation rejects `+1(234)567-8901`
with the validator's error on the `phone` field, and rejects `abc`
with the minimum-length error on the `phone` field. -/
theorem C4_phone_validation :
    validate_phone_field "+1(234)567-8901" =
      Except.error ("phone", "Phone number must have more than 12 digits") ∧
    validate_phone_field "abc" =
      Except.error ("phone", "ensure this value has at least 12 characters") :=
  ⟨rfl, rfl⟩

/-- Claim C5: search checks name, then lastname, then email; the
first truthy parameter picks the filter, and the result is the first
matching row — so with both name and email supplied, name wins. -/
theorem C5_search_priority (db : List Contact) (name lastname email : Option String) :
    (truthy name = true →
      search_contact db name lastname email =
        SearchResult.row (db.find? (fun c => c.name == name.getD ""))) ∧
    (truthy name = false → truthy lastname = true →
      search_contact db name lastname email =
        SearchResult.row (db.find? (fun c => c.lastname == lastname.getD ""))) ∧
    (truthy name = false → truthy lastname = false → truthy email = true →
      search_contact db name lastname email =
        SearchResult.row (db.find? (fun c => c.email == email.getD ""))) := by
  refine ⟨fun h1 => ?_, fun h1 h2 => ?_, fun h1 h2 h3 => ?_⟩ <;>
    simp [search_contact, h1]
  · simp [h2]
  · simp [h2, h3]

/-- Witness for C5: with name and email both supplied, the result is
the first of the two contacts named Ann, matched on name. -/
theorem C5_search_priority_witness :
    search_contact [annJun5, annJun10] (some "Ann") none (some "zz@q.com") =
      SearchResult.row (some annJun5) :=
  ((C5_search_priority [annJun5, annJun10] (some "Ann") none (some "zz@q.com")).1
    (by decide)).trans (by decide)

/-- Counterexample to claim C6: the catch-all handler puts the raised
exception's attribute dictionary into the response body, so two
requests failing with different internal exceptions receive different
payloads, and internal details (here a SQL statement) reach the
client. -/
theorem C6_counterexample :
    unexpected_exception_handler excLeaky ≠ unexpected_exception_handler excPlain ∧
    (unexpected_exception_handler excLeaky).error =
      [("statement", "SELECT id FROM users")] := by decide

/-- Claim C6 (amended): every unexpected failure yields status 500
with the fixed generic message, but the body also carries the
exception's attribute dictionary verbatim; the payload depends on the
exception only through that dictionary, so exceptions with equal
attribute dictionaries receive identical payloads while attribute
contents are exposed. -/
theorem C6_generic_500 :
    (∀ exc : PyExc, (unexpected_exception_handler exc).status = 500 ∧
      (unexpected_exception_handler exc).message = "An unexpected error occurred" ∧
      (unexpected_exception_handler exc).error = exc.attrs) ∧
    (∀ e1 e2 : PyExc, e1.attrs = e2.attrs →
      unexpected_exception_handler e1 = unexpected_exception_handler e2) := by
  refine ⟨fun exc => ⟨rfl, rfl, rfl⟩, fun e1 e2 h => ?_⟩
  simp [unexpected_exception_handler, h]

/-- Witness for C6: two distinct exception classes with the same
(empty) attribute dictionary receive the same payload. -/
theorem C6_generic_500_witness :
    unexpected_exception_handler
        { typeName := "OperationalError", args := "x", attrs := [] } =
      unexpected_exception_handler
        { typeName := "ValueError", args := "y", attrs := [] } :=
  C6_generic_500.2
    { typeName := "OperationalError", args := "x", attrs := [] }
    { typeName := "ValueError", args := "y", attrs := [] } rfl

/-- Counterexample to claim C7: a PATCH whose `born_date` does not
parse as a calendar date produces no validation error — the handler
succeeds and writes the raw string into the stored row. -/
theorem C7_counterexample :
    update_contact [annJun5] 1 badDatePatch =
      Except.ok ([{ annJun5 with born_date := BornVal.raw "99-99-9999" }],
        "record was succefully updated") := rfl

/-- Claim C7 (amended): the PATCH handler performs no date validation
on `born_date`: any non-empty supplied string — parseable as a date
or not — is committed verbatim to the stored row's `born_date`. -/
theorem C7_patch_borndate_unparsed (db : List Contact) (cid : Int)
    (c : Contact) (s : String) (h : firstById db cid = some c)
    (hs : (s != "") = true) :
    ∃ db2, update_contact db cid { noParams with born_date := some s } =
        Except.ok (db2, "record was succefully updated") ∧
      ∃ c2, firstById db2 cid = some c2 ∧ c2.born_date = BornVal.raw s := by
  rcases C2_update_merge db cid { noParams with born_date := some s } c h with
    ⟨db2, hok, c2, hfind, _, _, _, _, hborn, _⟩
  refine ⟨db2, hok, c2, hfind, ?_⟩
  rw [hborn]
  simp [noParams, truthy, hs]

/-- Witness for C7: PATCH of contact 1 with `born_date=99-99-9999`
succeeds and stores the raw string. -/
theorem C7_patch_borndate_unparsed_witness :
    ∃ db2, update_contact [annJun5] 1 { noParams with born_date := some "99-99-9999" } =
        Except.ok (db2, "record was succefully updated") ∧
      ∃ c2, firstById db2 1 = some c2 ∧ c2.born_date = BornVal.raw "99-99-9999" :=
  C7_patch_borndate_unparsed [annJun5] 1 annJun5 "99-99-9999" rfl rfl

/-- Claim C8: a stored Feb 29 birth date in a non-leap current year
makes the birthday query raise a date-construction error instead of
returning a normal result. -/
theorem C8_feb29_nonleap (today : PyDate) (db : List Contact) (u : Contact)
    (bd : PyDate) (hu : u ∈ db) (hbd : u.born_date = BornVal.date bd)
    (hm : bd.month = 2) (hd : bd.day = 29) (hleap : isLeap today.year = false) :
    ∃ e, get_birthday_week today db = Except.error e := by
  apply gbw_error today db u hu
  simp [yearBday, bornMonthDay, hbd, hm, hd, mkDate, daysInMonth, hleap]

/-- Witness for C8: in 2025 (not a leap year) a contact born
2000-02-29 makes the birthday query raise. -/
theorem C8_feb29_nonleap_witness :
    ∃ e, get_birthday_week ⟨2025, 6, 1⟩ [leapAnn] = Except.error e :=
  C8_feb29_nonleap ⟨2025, 6, 1⟩ [leapAnn] leapAnn ⟨2000, 2, 29⟩
    (by decide) rfl rfl rfl (by decide)

/-- Claim C9: GET, PATCH and DELETE on /contacts/(contact_id) all
declare the path parameter with a greater-than-zero bound, so a zero
or negative id is rejected by parameter validation and no handler
body (hence no store operation) runs. -/
theorem C9_path_gt0 (db : List Contact) (cid : Int) (p : UpdateParams)
    (h : cid ≤ 0) :
    route_read_contact db cid = Except.error pathViolation ∧
    route_update_contact db cid p = Except.error pathViolation ∧
    route_delete_contact db cid = Except.error pathViolation := by
  have hng : ¬ (cid > 0) := by omega
  simp [route_read_contact, route_update_contact, route_delete_contact, hng]

/-- Witness for C9: id 0 is rejected on all three routes. -/
theorem C9_path_gt0_witness :
    route_read_contact [annJun5] 0 = Except.error pathViolation ∧
    route_update_contact [annJun5] 0 noParams = Except.error pathViolation ∧
    route_delete_contact [annJun5] 0 = Except.error pathViolation :=
  C9_path_gt0 [annJun5] 0 noParams (by decide)

/-- Claim C10: with no truthy search parameter, the search route
answers with the literal fallback body and the default 200 status —
the same response for every table state, since no store query runs. -/
theorem C10_search_empty (db : List Contact) (name lastname email : Option String)
    (h1 : truthy name = false) (h2 : truthy lastname = false)
    (h3 : truthy email = false) :
    search_route_response db name lastname email =
      (200, SearchResult.message "Not Found") := by
  simp [search_route_response, search_contact, h1, h2, h3]

/-- Witness for C10: searching a non-empty table with all three
parameters absent yields the 200 fallback body. -/
theorem C10_search_empty_witness :
    search_route_response [annJun5] none none none =
      (200, SearchResult.message "Not Found") :=
  C10_search_empty [annJun5] none none none rfl rfl rfl

end Fastapi1
